import Mathlib

/-!
Shallow embedding of `src/web/cached_property.py`: a Python descriptor class
`cached_property` with fields `fget`, `fset`, `fdel`, `__doc__`, and methods
`__init__`, `__get__`, `__set__`, `__delete__`, `getter`, `setter`, `deleter`.

Modelling choices, each traceable to the source:
- A Python instance `obj` is modelled as `Obj σ V`: an abstract backing state
  `backing : σ` (whatever the user functions read and mutate, e.g. the `_p`
  field of the demo class) plus `dict : String → Option V`, the instance's
  generic attribute storage `obj.__dict__` as used by the descriptor for its
  cache slots (keyed by the compute function's `__name__` string).
- Python functions carry a `__name__` and a `__doc__`; the compute function's
  are both consulted by the source, so `fget` is a `NamedFn` bundling them
  with the pure computation `σ → V`.  `fset`/`fdel` are state transformers;
  only their presence and effect matter to the source.
- `raise AttributeError(...)` becomes an `Err` value.  The source's
  `__set__`/`__delete__` evaluate `self.fget.__name__` after calling the
  user function; when `fget` is `None` this raises
  `AttributeError("NoneType object has no attribute __name__")`, modelled by
  `Err.noneHasNoName` (distinct from the three documented errors).
- Each operation also returns the number of times it invoked the relevant
  user-supplied function, instrumenting the source's call sites so that
  "invokes exactly once" claims are statable; the counters add nothing else.
-/

namespace CachedProperty

/-- The `AttributeError`s the source can raise: `"unreadable attribute"`,
`"can't set attribute"`, `"can't delete attribute"`, and the implicit
`NoneType`-has-no-`__name__` error from `self.fget.__name__` when `fget` is
`None`. -/
inductive Err where
  | unreadable
  | unwritable
  | undeletable
  | noneHasNoName
deriving DecidableEq, Repr

/-- A Python function as the descriptor sees its compute function: a
`__name__`, a `__doc__` (possibly `None`), and the computation itself. -/
structure NamedFn (σ V : Type) where
  name : String
  doc : Option String
  fn : σ → V

/-- A Python instance: abstract backing state plus the generic attribute
storage `obj.__dict__` (restricted to the value slots the descriptor uses). -/
structure Obj (σ V : Type) where
  backing : σ
  dict : String → Option V

/-- The descriptor object: `self.fget`, `self.fset`, `self.fdel`,
`self.__doc__`, exactly the four attributes `__init__` assigns. -/
structure cached_property (σ V : Type) where
  fget : Option (NamedFn σ V)
  fset : Option (σ → V → σ)
  fdel : Option (σ → σ)
  doc : Option String

/-- `cached_property.__init__(self, fget, fset, fdel, doc)`:
stores the three functions and sets `self.__doc__ = doc`, except that when
`doc is None and fget is not None` it uses `fget.__doc__`. -/
def init (fget : Option (NamedFn σ V)) (fset : Option (σ → V → σ))
    (fdel : Option (σ → σ)) (doc : Option String) : cached_property σ V :=
  { fget := fget, fset := fset, fdel := fdel,
    doc := match doc, fget with
           | none, some g => g.doc
           | d, _ => d }

/-- What `__get__` evaluates to: the descriptor itself (class-level access,
`obj is None`), a value, or a raised error. -/
inductive GetRes (σ V : Type) where
  | acc (a : cached_property σ V)
  | val (v : V)
  | err (e : Err)

/-- Outcome of `__get__`: its result, the post-state of the instance
(`none` when no instance was supplied), and how many times `self.fget`
was invoked. -/
structure GetOut (σ V : Type) where
  result : GetRes σ V
  obj : Option (Obj σ V)
  computeCalls : Nat

/-- `cached_property.__get__(self, obj, objtype=None)` (the `objtype`
argument is unused by the source):
if `obj is None` return `self`; if `self.fget is None` raise
`AttributeError("unreadable attribute")`; if `self.fget.__name__ in
obj.__dict__` return the cached value; otherwise compute
`self.fget(obj)`, store it under `self.fget.__name__`, and return it. -/
def get (self : cached_property σ V) (obj : Option (Obj σ V)) : GetOut σ V :=
  match obj with
  | none => ⟨.acc self, none, 0⟩
  | some o =>
    match self.fget with
    | none => ⟨.err .unreadable, some o, 0⟩
    | some g =>
      match o.dict g.name with
      | some v => ⟨.val v, some o, 0⟩
      | none =>
        let v := g.fn o.backing
        ⟨.val v, some { o with dict := fun k => if k = g.name then some v else o.dict k }, 1⟩

/-- The source's invalidation step, shared verbatim by `__set__` and
`__delete__`: `if self.fget.__name__ in obj.__dict__: del
obj.__dict__[self.fget.__name__]`. -/
def clearSlot (name : String) (o : Obj σ V) : Obj σ V :=
  if (o.dict name).isSome then
    { o with dict := fun k => if k = name then none else o.dict k }
  else o

/-- Outcome of `__set__`: the raised error if any, the post-state of the
instance, and how many times `self.fset` was invoked. -/
structure SetOut (σ V : Type) where
  err : Option Err
  obj : Obj σ V
  fsetCalls : Nat

/-- `cached_property.__set__(self, obj, value)`:
if `self.fset is None` raise `AttributeError("can't set attribute")`;
call `self.fset(obj, value)`; then clear the slot keyed by
`self.fget.__name__` — which, when `self.fget is None`, raises the
`NoneType`-has-no-`__name__` `AttributeError` after the write already
took effect. -/
def set (self : cached_property σ V) (o : Obj σ V) (value : V) : SetOut σ V :=
  match self.fset with
  | none => ⟨some .unwritable, o, 0⟩
  | some w =>
    let o1 : Obj σ V := { o with backing := w o.backing value }
    match self.fget with
    | none => ⟨some .noneHasNoName, o1, 1⟩
    | some g => ⟨none, clearSlot g.name o1, 1⟩

/-- Outcome of `__delete__`: the raised error if any, the post-state of the
instance, and how many times `self.fdel` was invoked. -/
structure DelOut (σ V : Type) where
  err : Option Err
  obj : Obj σ V
  fdelCalls : Nat

/-- `cached_property.__delete__(self, obj)`:
if `self.fdel is None` raise `AttributeError("can't delete attribute")`;
call `self.fdel(obj)`; then clear the slot keyed by `self.fget.__name__`
(raising the `NoneType` `AttributeError` when `self.fget is None`). -/
def del (self : cached_property σ V) (o : Obj σ V) : DelOut σ V :=
  match self.fdel with
  | none => ⟨some .undeletable, o, 0⟩
  | some r =>
    let o1 : Obj σ V := { o with backing := r o.backing }
    match self.fget with
    | none => ⟨some .noneHasNoName, o1, 1⟩
    | some g => ⟨none, clearSlot g.name o1, 1⟩

/-- `cached_property.getter(self, fget)`:
`return type(self)(fget, self.fset, self.fdel, self.__doc__)`. -/
def cached_property.getter (self : cached_property σ V) (f : Option (NamedFn σ V)) : cached_property σ V :=
  init f self.fset self.fdel self.doc

/-- `cached_property.setter(self, fset)`:
`return type(self)(self.fget, fset, self.fdel, self.__doc__)`. -/
def cached_property.setter (self : cached_property σ V) (w : Option (σ → V → σ)) : cached_property σ V :=
  init self.fget w self.fdel self.doc

/-- `cached_property.deleter(self, fdel)`:
`return type(self)(self.fget, self.fset, fdel, self.__doc__)`. -/
def cached_property.deleter (self : cached_property σ V) (r : Option (σ → σ)) : cached_property σ V :=
  init self.fget self.fset r self.doc

/-- A sequence of `n` instance-level reads through one accessor with no
intervening write or delete, threading the instance state: returns the list
of values read, the total number of `fget` invocations, and the final
instance state.  (A read that does not produce a value stops the sequence.) -/
def readN (a : cached_property σ V) (o : Obj σ V) : Nat → List V × Nat × Obj σ V
  | 0 => ([], 0, o)
  | n + 1 =>
    let out := get a (some o)
    match out.result, out.obj with
    | .val v, some o1 =>
      let rest := readN a o1 n
      (v :: rest.1, out.computeCalls + rest.2.1, rest.2.2)
    | _, _ => ([], out.computeCalls, o)

/-! ### Concrete instances used by witnesses and counterexamples -/

def wFn : Nat → Nat → Nat := fun _ v => v

def rFn : Nat → Nat := fun _ => 0

def gFn : NamedFn Nat Nat := ⟨"p", some "docG", fun s => s⟩

def gFn2 : NamedFn Nat Nat := ⟨"p", none, fun s => s + 1⟩

def f7 : NamedFn Nat Nat := ⟨"q", some "docQ", fun s => s + 2⟩

def w0 : Nat → Nat → Nat := fun s _ => s

def aFull : cached_property Nat Nat := ⟨some gFn, some wFn, some rFn, some "docG"⟩

def aNone : cached_property Nat Nat := ⟨none, none, none, none⟩

def aWOnly : cached_property Nat Nat := ⟨none, some wFn, some rFn, none⟩

def aColl : cached_property Nat Nat := ⟨some gFn2, some wFn, some rFn, none⟩

def a7 : cached_property Nat Nat := init none (some w0) none none

def oEmpty : Obj Nat Nat := ⟨10, fun _ => none⟩

/-! ### Helper lemmas about the invalidation step and reads -/

theorem clearSlot_backing (name : String) (o : Obj σ V) :
    (clearSlot name o).backing = o.backing := by
  unfold clearSlot
  by_cases h : (o.dict name).isSome <;> simp [h]

theorem clearSlot_dict_self (name : String) (o : Obj σ V) :
    (clearSlot name o).dict name = none := by
  unfold clearSlot
  by_cases h : (o.dict name).isSome
  · simp [h]
  · simp [h, Option.not_isSome_iff_eq_none.mp h]

theorem clearSlot_dict_ne (name k : String) (o : Obj σ V) (hk : k ≠ name) :
    (clearSlot name o).dict k = o.dict k := by
  unfold clearSlot
  by_cases h : (o.dict name).isSome <;> simp [h, hk]

theorem get_cached (a : cached_property σ V) (g : NamedFn σ V) (o : Obj σ V) (v : V)
    (hg : a.fget = some g) (hv : o.dict g.name = some v) :
    get a (some o) = ⟨.val v, some o, 0⟩ := by
  simp [get, hg, hv]

theorem get_empty (a : cached_property σ V) (g : NamedFn σ V) (o : Obj σ V)
    (hg : a.fget = some g) (hv : o.dict g.name = none) :
    get a (some o) =
      ⟨.val (g.fn o.backing),
       some { o with dict := fun k => if k = g.name then some (g.fn o.backing) else o.dict k },
       1⟩ := by
  simp [get, hg, hv]

theorem readN_cached (a : cached_property σ V) (g : NamedFn σ V) (o : Obj σ V) (v : V)
    (hg : a.fget = some g) (hv : o.dict g.name = some v) (n : Nat) :
    readN a o n = (List.replicate n v, 0, o) := by
  induction n with
  | zero => rfl
  | succ m ih => simp [readN, get_cached a g o v hg hv, ih, List.replicate_succ]

/-! ### Claims -/

/-- C9: a Read performed at class level (no owning instance supplied,
`obj is None`) returns the accessor object itself, invokes no user-supplied
function, and does not fail with `Unreadable` even when `fget` is unbound. -/
theorem C9_class_level_read (σ V : Type) (a : cached_property σ V) :
    get a none = ⟨.acc a, none, 0⟩ := rfl

/-- C4: Read with no bound `fget` fails with `Unreadable`; Write with no
bound `fset` fails with `Unwritable`; Delete with no bound `fdel` fails with
`Undeletable`.  In each case no user-supplied function is invoked (the call
counter is 0) and the instance is returned entirely unchanged. -/
theorem C4_unbound_errors (σ V : Type) (a : cached_property σ V) (o : Obj σ V) (v : V) :
    (a.fget = none → get a (some o) = ⟨.err .unreadable, some o, 0⟩) ∧
    (a.fset = none → set a o v = ⟨some .unwritable, o, 0⟩) ∧
    (a.fdel = none → del a o = ⟨some .undeletable, o, 0⟩) := by
  refine ⟨fun h => ?_, fun h => ?_, fun h => ?_⟩ <;> simp [get, set, del, h]

theorem C4_unbound_errors_witness :
    get aNone (some oEmpty) = ⟨.err .unreadable, some oEmpty, 0⟩ ∧
    set aNone oEmpty 5 = ⟨some .unwritable, oEmpty, 0⟩ ∧
    del aNone oEmpty = ⟨some .undeletable, oEmpty, 0⟩ :=
  ⟨(C4_unbound_errors Nat Nat aNone oEmpty 5).1 rfl,
   (C4_unbound_errors Nat Nat aNone oEmpty 5).2.1 rfl,
   (C4_unbound_errors Nat Nat aNone oEmpty 5).2.2 rfl⟩

/-- C10: when `fget` is unbound but `fset` (resp. `fdel`) is bound, Write
(resp. Delete) first invokes the bound user function exactly once and only
then fails with the `NoneType`-has-no-`__name__` attribute error raised by
`self.fget.__name__`; the user function's side effect on the backing state
is applied despite the failure, and the slot dictionary is untouched. -/
theorem C10_side_effect_then_error (σ V : Type) (a : cached_property σ V)
    (w : σ → V → σ) (r : σ → σ) (o : Obj σ V) (v : V) (hg : a.fget = none) :
    (a.fset = some w →
      set a o v = ⟨some .noneHasNoName, { o with backing := w o.backing v }, 1⟩) ∧
    (a.fdel = some r →
      del a o = ⟨some .noneHasNoName, { o with backing := r o.backing }, 1⟩) := by
  refine ⟨fun h => ?_, fun h => ?_⟩ <;> simp [set, del, hg, h]

theorem C10_side_effect_then_error_witness :
    set aWOnly oEmpty 5 = ⟨some .noneHasNoName, { oEmpty with backing := wFn oEmpty.backing 5 }, 1⟩ ∧
    del aWOnly oEmpty = ⟨some .noneHasNoName, { oEmpty with backing := rFn oEmpty.backing }, 1⟩ :=
  ⟨(C10_side_effect_then_error Nat Nat aWOnly wFn rFn oEmpty 5 rfl).1 rfl,
   (C10_side_effect_then_error Nat Nat aWOnly wFn rFn oEmpty 5 rfl).2 rfl⟩

/-- C2: Write with bound `fset` and bound `fget` invokes `fset` exactly once,
succeeds, and leaves the slot empty regardless of whether a value was cached;
the written value is never stored in the slot, so the Read immediately after
the Write invokes `fget` again (one compute call) and that compute observes
the backing state the write established. -/
theorem C2_write_invalidates (σ V : Type) (a : cached_property σ V)
    (g : NamedFn σ V) (w : σ → V → σ) (o : Obj σ V) (v : V)
    (hg : a.fget = some g) (hw : a.fset = some w) :
    (set a o v).fsetCalls = 1 ∧
    (set a o v).err = none ∧
    (set a o v).obj.backing = w o.backing v ∧
    (set a o v).obj.dict g.name = none ∧
    (get a (some (set a o v).obj)).computeCalls = 1 ∧
    (get a (some (set a o v).obj)).result = GetRes.val (g.fn (w o.backing v)) := by
  have hobj : (set a o v).obj = clearSlot g.name { o with backing := w o.backing v } := by
    simp [set, hg, hw]
  have hslot : (set a o v).obj.dict g.name = none := by
    rw [hobj]; exact clearSlot_dict_self g.name _
  have hback : (set a o v).obj.backing = w o.backing v := by
    rw [hobj, clearSlot_backing]
  have hget := get_empty a g ((set a o v).obj) hg hslot
  refine ⟨by simp [set, hg, hw], by simp [set, hg, hw], hback, hslot, ?_, ?_⟩
  · rw [hget]
  · rw [hget, hback]

theorem C2_write_invalidates_witness :
    (set aFull oEmpty 20).fsetCalls = 1 ∧
    (set aFull oEmpty 20).err = none ∧
    (set aFull oEmpty 20).obj.backing = wFn oEmpty.backing 20 ∧
    (set aFull oEmpty 20).obj.dict gFn.name = none ∧
    (get aFull (some (set aFull oEmpty 20).obj)).computeCalls = 1 ∧
    (get aFull (some (set aFull oEmpty 20).obj)).result = GetRes.val (gFn.fn (wFn oEmpty.backing 20)) :=
  C2_write_invalidates Nat Nat aFull gFn wFn oEmpty 20 rfl rfl

/-- C3: Delete with bound `fdel` and bound `fget` invokes `fdel` exactly
once, succeeds, and leaves the slot empty, so the Read immediately after the
Delete invokes `fget` again (one compute call). -/
theorem C3_delete_invalidates (σ V : Type) (a : cached_property σ V)
    (g : NamedFn σ V) (r : σ → σ) (o : Obj σ V)
    (hg : a.fget = some g) (hr : a.fdel = some r) :
    (del a o).fdelCalls = 1 ∧
    (del a o).err = none ∧
    (del a o).obj.backing = r o.backing ∧
    (del a o).obj.dict g.name = none ∧
    (get a (some (del a o).obj)).computeCalls = 1 ∧
    (get a (some (del a o).obj)).result = GetRes.val (g.fn (r o.backing)) := by
  have hobj : (del a o).obj = clearSlot g.name { o with backing := r o.backing } := by
    simp [del, hg, hr]
  have hslot : (del a o).obj.dict g.name = none := by
    rw [hobj]; exact clearSlot_dict_self g.name _
  have hback : (del a o).obj.backing = r o.backing := by
    rw [hobj, clearSlot_backing]
  have hget := get_empty a g ((del a o).obj) hg hslot
  refine ⟨by simp [del, hg, hr], by simp [del, hg, hr], hback, hslot, ?_, ?_⟩
  · rw [hget]
  · rw [hget, hback]

theorem C3_delete_invalidates_witness :
    (del aFull oEmpty).fdelCalls = 1 ∧
    (del aFull oEmpty).err = none ∧
    (del aFull oEmpty).obj.backing = rFn oEmpty.backing ∧
    (del aFull oEmpty).obj.dict gFn.name = none ∧
    (get aFull (some (del aFull oEmpty).obj)).computeCalls = 1 ∧
    (get aFull (some (del aFull oEmpty).obj)).result = GetRes.val (gFn.fn (rFn oEmpty.backing)) :=
  C3_delete_invalidates Nat Nat aFull gFn rFn oEmpty rfl rfl

/-- C1: with `fget` bound, a Read on a non-empty slot returns the held value
without invoking `fget` and leaves the instance unchanged; a Read on an
empty slot invokes `fget` exactly once, stores the result in the slot, and
returns it; and any sequence of `n + 1` Reads starting from an empty slot
with no intervening Write or Delete invokes `fget` exactly once in total and
returns the same value every time. -/
theorem C1_lazy_single_compute (σ V : Type) (a : cached_property σ V)
    (g : NamedFn σ V) (o : Obj σ V) (hg : a.fget = some g) :
    (∀ u, o.dict g.name = some u → get a (some o) = ⟨.val u, some o, 0⟩) ∧
    (o.dict g.name = none →
      (get a (some o)).computeCalls = 1 ∧
      (get a (some o)).result = GetRes.val (g.fn o.backing) ∧
      ((get a (some o)).obj.map fun o1 => o1.dict g.name) = some (some (g.fn o.backing))) ∧
    (o.dict g.name = none → ∀ n : Nat,
      (readN a o (n + 1)).1 = List.replicate (n + 1) (g.fn o.backing) ∧
      (readN a o (n + 1)).2.1 = 1) := by
  refine ⟨fun u hu => get_cached a g o u hg hu, fun h => ?_, fun h n => ?_⟩
  · rw [get_empty a g o hg h]
    exact ⟨rfl, rfl, by simp⟩
  · have hstep := get_empty a g o hg h
    set o1 : Obj σ V :=
      { o with dict := fun k => if k = g.name then some (g.fn o.backing) else o.dict k } with ho1
    have hc : o1.dict g.name = some (g.fn o.backing) := by simp [ho1]
    have hrest := readN_cached a g o1 (g.fn o.backing) hg hc n
    constructor
    · show (readN a o (n + 1)).1 = _
      rw [readN, hstep]
      simp [hrest, List.replicate_succ]
    · show (readN a o (n + 1)).2.1 = 1
      rw [readN, hstep]
      simp [hrest]

theorem C1_lazy_single_compute_witness :
    ((get aFull (some oEmpty)).computeCalls = 1 ∧
      (get aFull (some oEmpty)).result = GetRes.val (gFn.fn oEmpty.backing) ∧
      ((get aFull (some oEmpty)).obj.map fun o1 => o1.dict gFn.name) =
        some (some (gFn.fn oEmpty.backing))) ∧
    (readN aFull oEmpty 3).1 = List.replicate 3 (gFn.fn oEmpty.backing) ∧
    (readN aFull oEmpty 3).2.1 = 1 :=
  ⟨(C1_lazy_single_compute Nat Nat aFull gFn oEmpty rfl).2.1 rfl,
   (C1_lazy_single_compute Nat Nat aFull gFn oEmpty rfl).2.2 rfl 2⟩

/-- C6: with `fget` bound, the slot behaves as a two-state machine holding
at most one value (the slot is `Option`-valued by construction): a
successful Read on a non-empty slot leaves the instance unchanged, a
successful Read on an empty slot transitions it to holding the computed
value while touching no other key, and a successful Write or Delete
transitions the slot from either state to empty. -/
theorem C6_slot_state_machine (σ V : Type) (a : cached_property σ V)
    (g : NamedFn σ V) (o : Obj σ V) (v : V) (hg : a.fget = some g) :
    (∀ u, o.dict g.name = some u → (get a (some o)).obj = some o) ∧
    (o.dict g.name = none →
      ((get a (some o)).obj.map fun o1 => o1.dict g.name) = some (some (g.fn o.backing)) ∧
      ∀ k, k ≠ g.name →
        ((get a (some o)).obj.map fun o1 => o1.dict k) = some (o.dict k)) ∧
    (∀ w, a.fset = some w →
      (set a o v).err = none ∧ (set a o v).obj.dict g.name = none) ∧
    (∀ r, a.fdel = some r →
      (del a o).err = none ∧ (del a o).obj.dict g.name = none) := by
  refine ⟨fun u hu => by rw [get_cached a g o u hg hu], fun h => ?_,
    fun w hw => ?_, fun r hr => ?_⟩
  · rw [get_empty a g o hg h]
    exact ⟨by simp, fun k hk => by simp [hk]⟩
  · constructor
    · simp [set, hg, hw]
    · have hobj : (set a o v).obj = clearSlot g.name { o with backing := w o.backing v } := by
        simp [set, hg, hw]
      rw [hobj]; exact clearSlot_dict_self g.name _
  · constructor
    · simp [del, hg, hr]
    · have hobj : (del a o).obj = clearSlot g.name { o with backing := r o.backing } := by
        simp [del, hg, hr]
      rw [hobj]; exact clearSlot_dict_self g.name _

theorem C6_slot_state_machine_witness :
    ((get aFull (some oEmpty)).obj.map fun o1 => o1.dict gFn.name) =
      some (some (gFn.fn oEmpty.backing)) ∧
    ((get aFull (some oEmpty)).obj.map fun o1 => o1.dict "other") =
      some (oEmpty.dict "other") ∧
    ((set aFull oEmpty 7).err = none ∧ (set aFull oEmpty 7).obj.dict gFn.name = none) ∧
    ((del aFull oEmpty).err = none ∧ (del aFull oEmpty).obj.dict gFn.name = none) :=
  ⟨((C6_slot_state_machine Nat Nat aFull gFn oEmpty 7 rfl).2.1 rfl).1,
   ((C6_slot_state_machine Nat Nat aFull gFn oEmpty 7 rfl).2.1 rfl).2 "other" (by decide),
   (C6_slot_state_machine Nat Nat aFull gFn oEmpty 7 rfl).2.2.1 wFn rfl,
   (C6_slot_state_machine Nat Nat aFull gFn oEmpty 7 rfl).2.2.2 rFn rfl⟩

/-- C8: the cache slot is keyed by `fget.__name__` in the instance's generic
attribute storage, so two distinct accessors on the same instance whose
compute functions have the same name share one slot: a value cached under
that name is returned by either accessor's Read without invoking its own
compute, a Read through the first accessor populates the slot the second
then reads from, and a Write or Delete through the second clears the slot
the first uses. -/
theorem C8_name_collision (σ V : Type) (a1 a2 : cached_property σ V)
    (g1 g2 : NamedFn σ V) (o : Obj σ V) (v : V)
    (h1 : a1.fget = some g1) (h2 : a2.fget = some g2) (hn : g2.name = g1.name) :
    (∀ u, o.dict g1.name = some u → get a2 (some o) = ⟨.val u, some o, 0⟩) ∧
    (o.dict g1.name = none →
      get a2 ((get a1 (some o)).obj) =
        ⟨GetRes.val (g1.fn o.backing), (get a1 (some o)).obj, 0⟩) ∧
    (∀ w, a2.fset = some w → (set a2 o v).obj.dict g1.name = none) ∧
    (∀ r, a2.fdel = some r → (del a2 o).obj.dict g1.name = none) := by
  refine ⟨fun u hu => get_cached a2 g2 o u h2 (by rw [hn]; exact hu), fun h => ?_,
    fun w hw => ?_, fun r hr => ?_⟩
  · rw [get_empty a1 g1 o h1 h]
    exact get_cached a2 g2 _ _ h2 (by simp [hn])
  · have hobj : (set a2 o v).obj = clearSlot g2.name { o with backing := w o.backing v } := by
      simp [set, h2, hw]
    rw [hobj, hn]; exact clearSlot_dict_self g1.name _
  · have hobj : (del a2 o).obj = clearSlot g2.name { o with backing := r o.backing } := by
      simp [del, h2, hr]
    rw [hobj, hn]; exact clearSlot_dict_self g1.name _

theorem C8_name_collision_witness :
    get aColl ((get aFull (some oEmpty)).obj) =
      ⟨GetRes.val (gFn.fn oEmpty.backing), (get aFull (some oEmpty)).obj, 0⟩ ∧
    (set aColl oEmpty 3).obj.dict gFn.name = none ∧
    (del aColl oEmpty).obj.dict gFn.name = none :=
  ⟨(C8_name_collision Nat Nat aFull aColl gFn gFn2 oEmpty 3 rfl rfl rfl).2.1 rfl,
   (C8_name_collision Nat Nat aFull aColl gFn gFn2 oEmpty 3 rfl rfl rfl).2.2.1 wFn rfl,
   (C8_name_collision Nat Nat aFull aColl gFn gFn2 oEmpty 3 rfl rfl rfl).2.2.2 rFn rfl⟩

/-- C5 counterexample: on the accessor with `fset` bound but `fget` unbound,
Write invokes the write function and then raises the `NoneType` attribute
error from `self.fget.__name__` — a user-visible failure that is none of
`Unreadable`, `Unwritable`, `Undeletable`, refuting the claim that those
three are the only failure modes. -/
theorem C5_only_three_errors_counterexample :
    (set aWOnly oEmpty 5).err = some Err.noneHasNoName ∧
    Err.noneHasNoName ≠ Err.unreadable ∧
    Err.noneHasNoName ≠ Err.unwritable ∧
    Err.noneHasNoName ≠ Err.undeletable := by
  refine ⟨rfl, by decide, by decide, by decide⟩

/-- C5 (amended): provided `fget` is bound whenever `fset` or `fdel` is
bound, the only user-visible failure modes of Read, Write, and Delete are
`Unreadable`, `Unwritable`, and `Undeletable` respectively (the user
functions themselves are modelled as total, i.e. never failing). -/
theorem C5_only_three_errors_amended (σ V : Type) (a : cached_property σ V)
    (obj : Option (Obj σ V)) (o : Obj σ V) (v : V)
    (hs : a.fset.isSome → a.fget.isSome) (hd : a.fdel.isSome → a.fget.isSome) :
    ((get a obj).result ≠ GetRes.err Err.unwritable ∧
     (get a obj).result ≠ GetRes.err Err.undeletable ∧
     (get a obj).result ≠ GetRes.err Err.noneHasNoName) ∧
    ((set a o v).err = none ∨ (set a o v).err = some Err.unwritable) ∧
    ((del a o).err = none ∨ (del a o).err = some Err.undeletable) := by
  refine ⟨?_, ?_, ?_⟩
  · rcases obj with _ | o1
    · refine ⟨by simp [get], by simp [get], by simp [get]⟩
    · rcases hg : a.fget with _ | g
      · refine ⟨by simp [get, hg], by simp [get, hg], by simp [get, hg]⟩
      · rcases hc : o1.dict g.name with _ | u
        · refine ⟨by simp [get, hg, hc], by simp [get, hg, hc], by simp [get, hg, hc]⟩
        · refine ⟨by simp [get, hg, hc], by simp [get, hg, hc], by simp [get, hg, hc]⟩
  · rcases hw : a.fset with _ | w
    · right; simp [set, hw]
    · left
      rcases Option.isSome_iff_exists.mp (hs (by simp [hw])) with ⟨g, hg⟩
      simp [set, hw, hg]
  · rcases hr : a.fdel with _ | r
    · right; simp [del, hr]
    · left
      rcases Option.isSome_iff_exists.mp (hd (by simp [hr])) with ⟨g, hg⟩
      simp [del, hr, hg]

theorem C5_only_three_errors_amended_witness :
    ((get aFull (some oEmpty)).result ≠ GetRes.err Err.unwritable ∧
     (get aFull (some oEmpty)).result ≠ GetRes.err Err.undeletable ∧
     (get aFull (some oEmpty)).result ≠ GetRes.err Err.noneHasNoName) ∧
    ((set aFull oEmpty 5).err = none ∨ (set aFull oEmpty 5).err = some Err.unwritable) ∧
    ((del aFull oEmpty).err = none ∨ (del aFull oEmpty).err = some Err.undeletable) :=
  C5_only_three_errors_amended Nat Nat aFull (some oEmpty) oEmpty 5
    (fun _ => rfl) (fun _ => rfl)

/-- C7 counterexample: `getter` on an accessor whose documentation is absent
does not share that (absent) documentation — `__init__` re-derives the new
accessor's documentation from the new compute function's `__doc__`, so the
rebound accessor's documentation differs from the original's. -/
theorem C7_rebind_counterexample :
    (a7.getter (some f7)).doc = some "docQ" ∧
    a7.doc = none ∧
    (a7.getter (some f7)).doc ≠ a7.doc := by
  refine ⟨rfl, rfl, by decide⟩

/-- C7 (amended): each rebind operation returns a new accessor that replaces
exactly one of `fget`/`fset`/`fdel` while sharing the other two bindings,
and shares the original's documentation whenever that documentation is
present (when it is absent, the new accessor's documentation is re-derived
from its compute function); the original accessor is a value and is never
modified; the instance-level Read and Delete behavior of the accessor
returned by `setter` is unchanged from the original. -/
theorem C7_rebind_amended (σ V : Type) (a : cached_property σ V)
    (f : Option (NamedFn σ V)) (w : Option (σ → V → σ)) (r : Option (σ → σ)) :
    ((a.getter f).fget = f ∧ (a.getter f).fset = a.fset ∧ (a.getter f).fdel = a.fdel) ∧
    ((a.setter w).fget = a.fget ∧ (a.setter w).fset = w ∧ (a.setter w).fdel = a.fdel) ∧
    ((a.deleter r).fget = a.fget ∧ (a.deleter r).fset = a.fset ∧ (a.deleter r).fdel = r) ∧
    (∀ d, a.doc = some d →
      (a.getter f).doc = some d ∧ (a.setter w).doc = some d ∧ (a.deleter r).doc = some d) ∧
    (∀ o : Obj σ V, get (a.setter w) (some o) = get a (some o)) ∧
    (∀ o : Obj σ V, del (a.setter w) o = del a o) := by
  refine ⟨⟨rfl, rfl, rfl⟩, ⟨rfl, rfl, rfl⟩, ⟨rfl, rfl, rfl⟩, fun d hd => ?_,
    fun o => rfl, fun o => rfl⟩
  refine ⟨?_, ?_, ?_⟩ <;> simp [cached_property.getter, cached_property.setter, cached_property.deleter, init, hd]

theorem C7_rebind_amended_witness :
    ((aFull.getter (some f7)).doc = some "docG" ∧
     (aFull.setter (some w0)).doc = some "docG" ∧
     (aFull.deleter (some rFn)).doc = some "docG") ∧
    get (aFull.setter (some w0)) (some oEmpty) = get aFull (some oEmpty) ∧
    del (aFull.setter (some w0)) oEmpty = del aFull oEmpty :=
  ⟨(C7_rebind_amended Nat Nat aFull (some f7) (some w0) (some rFn)).2.2.2.1 "docG" rfl,
   (C7_rebind_amended Nat Nat aFull (some f7) (some w0) (some rFn)).2.2.2.2.1 oEmpty,
   (C7_rebind_amended Nat Nat aFull (some f7) (some w0) (some rFn)).2.2.2.2.2 oEmpty⟩

end CachedProperty
